import Mathlib

/-!
# Verification of the scroll-driven image-sequence player (src/script.js)

A shallow embedding of `src/script.js`: numeric quantities (scroll offsets,
sizes, time) are rationals, the mutable `state` record is an explicit
`State` structure, and each event handler becomes a function
`State → State`.  `requestAnimationFrame` scheduling is modelled by an
optional pending-animation record in the state; a tick is a function
applied at an explicit time.
-/

/-- JavaScript `Math.round` on a rational: round half up. -/
def jsRound (x : ℚ) : ℤ := Int.floor (x + 1/2)

/-- The `CONFIG` constant object of the script. -/
structure Config where
  frameCount : ℕ
  scrollLengthHSV : ℚ
  duration : ℚ
deriving DecidableEq, Repr

/-- The `CONFIG` object from src/script.js lines 5-12 (asset-path fields
omitted: no claim depends on them). -/
def CONFIG : Config := { frameCount := 145, scrollLengthHSV := 600, duration := 5000 }

/-- The phases of `state.phase` (src/script.js line 19). -/
inductive Phase where
  | LOADING
  | INTRO
  | WAITING_FOR_REPLAY
  | REPLAY_PLAYING
  | MANUAL
deriving DecidableEq, Repr

/-- Which completion callback a pending `animateScroll` carries: the one
passed by `startIntro` (line 164) or the one passed by `triggerReplay`
(line 185). -/
inductive Completion where
  | introDone
  | replayDone
deriving DecidableEq, Repr

/-- A pending programmatic scroll animation: the data captured by the
closure in `animateScroll` (src/script.js lines 110-140) when it schedules
its `loop` via `requestAnimationFrame`. -/
structure Anim where
  startY : ℚ
  dist : ℚ
  duration : ℚ
  startTime : ℚ
  onComplete : Completion
deriving DecidableEq, Repr

/-- The mutable program state: the `state` object (lines 15-21) together
with the browser-owned pieces the handlers read and write
(`window.scrollY`, the `no-scroll` body class, the pending
`requestAnimationFrame` callback). -/
structure State where
  loadedCount : ℕ
  currentFrame : ℤ
  phase : Phase
  scrollY : ℚ
  noScroll : Bool
  anim : Option Anim
deriving DecidableEq, Repr

/-- The layout environment: `document.body.scrollHeight` and
`window.innerHeight`. -/
structure Env where
  scrollHeight : ℚ
  innerHeight : ℚ
deriving DecidableEq, Repr

/-- The quantity `document.body.scrollHeight - window.innerHeight`,
computed at lines 153, 183 and 198 of src/script.js. -/
def maxScroll (env : Env) : ℚ := env.scrollHeight - env.innerHeight

/-- The index clamp at the top of `renderFrame` (src/script.js
lines 39-42): `index = Math.round(index); if (index < 0) index = 0;
if (index >= CONFIG.frameCount) index = CONFIG.frameCount - 1`. -/
def renderIndex (frameCount : ℕ) (index : ℚ) : ℤ :=
  let i := jsRound index
  let i := if i < 0 then 0 else i
  if i ≥ (frameCount : ℤ) then (frameCount : ℤ) - 1 else i

/-- The crop rectangle `(sx, sy, sw, sh)` computed by `renderFrame`
(src/script.js lines 54-72). -/
structure Rect where
  sx : ℚ
  sy : ℚ
  sw : ℚ
  sh : ℚ
deriving DecidableEq, Repr

/-- Cover-fit crop computation from `renderFrame` (src/script.js
lines 54-72): `targetRatio = cw/ch`, `imgRatio = iw/ih`; if
`imgRatio > targetRatio` keep full height and crop left/right, else keep
full width and crop top/bottom. -/
def cropRect (cw ch iw ih : ℚ) : Rect :=
  let targetRatio := cw / ch
  let imgRatio := iw / ih
  if imgRatio > targetRatio then
    { sh := ih, sw := ih * targetRatio, sy := 0, sx := (iw - ih * targetRatio) / 2 }
  else
    { sw := iw, sh := iw / targetRatio, sx := 0, sy := (ih - iw / targetRatio) / 2 }

/-- The scroll listener's frame mapping
`Math.floor(progress * (CONFIG.frameCount - 1))` (src/script.js
line 202). -/
def frameForScroll (frameCount : ℕ) (progress : ℚ) : ℤ :=
  Int.floor (progress * ((frameCount : ℚ) - 1))

/-- The two completion callbacks (src/script.js lines 164-170 and
185-189): the intro callback sets the phase to `WAITING_FOR_REPLAY` and
removes `no-scroll`; the replay callback sets the phase to `MANUAL` and
removes `no-scroll`. -/
def runCompletion : Completion → State → State
  | .introDone, s => { s with phase := .WAITING_FOR_REPLAY, noScroll := false }
  | .replayDone, s => { s with phase := .MANUAL, noScroll := false }

/-- The function `animateScroll(targetY, duration, onComplete)`
(src/script.js lines 110-140): capture `startY = window.scrollY`; if the distance is 0
invoke `onComplete` at once and return without scheduling a tick;
otherwise record `startTime = performance.now()` and schedule the loop. -/
def animateScroll (targetY duration : ℚ) (onComplete : Completion) (now : ℚ)
    (s : State) : State :=
  let startY := s.scrollY
  let dist := targetY - startY
  if dist = 0 then
    runCompletion onComplete s
  else
    { s with anim := some { startY := startY, dist := dist, duration := duration,
                            startTime := now, onComplete := onComplete } }

/-- One invocation of the `loop` tick inside `animateScroll`
(src/script.js lines 121-138) at wall-clock `time`: compute
`progress = Math.min(1, elapsed / duration)`, scroll to
`startY + dist * progress`, reschedule while `progress < 1`, otherwise
invoke the completion callback. -/
def animTick (time : ℚ) (s : State) : State :=
  match s.anim with
  | none => s
  | some a =>
    let elapsed := time - a.startTime
    let progress := min 1 (elapsed / a.duration)
    let ease := progress
    let newY := a.startY + a.dist * ease
    let s1 := { s with scrollY := newY }
    if progress < 1 then s1
    else runCompletion a.onComplete { s1 with anim := none }

/-- The function `startIntro` (src/script.js lines 144-171): enter `INTRO`, lock
scrolling, jump to the top, then if `maxScroll <= 0` fall back to
`WAITING_FOR_REPLAY` with scrolling unlocked, else animate to
`maxScroll`. -/
def startIntro (env : Env) (now : ℚ) (s : State) : State :=
  let s1 := { s with phase := Phase.INTRO, noScroll := true, scrollY := 0 }
  let m := maxScroll env
  if m ≤ 0 then
    { s1 with phase := .WAITING_FOR_REPLAY, noScroll := false }
  else
    animateScroll m CONFIG.duration .introDone now s1

/-- The function `triggerReplay` (src/script.js lines 173-190): a no-op unless the
phase is `WAITING_FOR_REPLAY`; otherwise enter `REPLAY_PLAYING`, lock
scrolling, jump instantly to the top and animate to `maxScroll`. -/
def triggerReplay (env : Env) (now : ℚ) (s : State) : State :=
  if s.phase ≠ Phase.WAITING_FOR_REPLAY then s
  else
    let s1 := { s with phase := Phase.REPLAY_PLAYING, noScroll := true, scrollY := 0 }
    animateScroll (maxScroll env) CONFIG.duration .replayDone now s1

/-- The function `onAllLoaded` (src/script.js lines 102-106): start the
intro only if still in `LOADING`. -/
def onAllLoaded (env : Env) (now : ℚ) (s : State) : State :=
  if s.phase = Phase.LOADING then startIntro env now s else s

/-- The `img.onload` handler attached in `preload` (src/script.js
lines 84-97): increment `loadedCount` and, when it reaches
`CONFIG.frameCount`, call `onAllLoaded`.  (The first-frame variant also
renders frame 0, which touches no state.) -/
def onFrameLoad (env : Env) (now : ℚ) (s : State) : State :=
  let s1 := { s with loadedCount := s.loadedCount + 1 }
  if s1.loadedCount = CONFIG.frameCount then onAllLoaded env now s1 else s1

/-- How one frame's request settles. -/
inductive LoadOutcome where
  | success
  | error
deriving DecidableEq, Repr

/-- The handler that runs when a frame's request errors: `preload`
attaches no `onerror` handler, so an errored request runs no code and
changes no state. -/
def onFrameError (s : State) : State := s

/-- Settle every frame request in order: a successful load runs the
`onload` handler, a failed load runs nothing (src/script.js
lines 79-100). -/
def settleAll (env : Env) (now : ℚ) (outcomes : List LoadOutcome) (s : State) : State :=
  outcomes.foldl (fun st o =>
    match o with
    | .success => onFrameLoad env now st
    | .error => onFrameError st) s

/-- The scroll listener (src/script.js lines 196-219): if
`maxScroll <= 0` return at once; otherwise clamp `scrollTop/maxScroll`
to `[0,1]`, map to a frame index, store it in `state.currentFrame`,
render, and — only when the phase is `WAITING_FOR_REPLAY` — trigger the
replay. -/
def onScroll (env : Env) (now : ℚ) (s : State) : State :=
  let scrollTop := s.scrollY
  let m := maxScroll env
  if m ≤ 0 then s
  else
    let progress := min 1 (max 0 (scrollTop / m))
    let frameIndex := frameForScroll CONFIG.frameCount progress
    let s1 := { s with currentFrame := frameIndex }
    if s1.phase = Phase.WAITING_FOR_REPLAY then triggerReplay env now s1 else s1

/-- The `interactionHandler` for `click` and `touchstart` events
(src/script.js lines 222-229): trigger the replay only while waiting. -/
def interactionHandler (env : Env) (now : ℚ) (s : State) : State :=
  if s.phase = Phase.WAITING_FOR_REPLAY then triggerReplay env now s else s

/-- The `wheel` listener (src/script.js lines 231-237): its body is
empty — the `triggerReplay()` call is commented out, deferring to the
scroll listener. -/
def wheelHandler (s : State) : State := s

/-- The kinds of user input events the spec names. -/
inductive Event where
  | click
  | touchstart
  | wheel
  | keydown
  | scroll
deriving DecidableEq, Repr

/-- Deliver one event to the listeners src/script.js registers for it:
`click` and `touchstart` run `interactionHandler`, `wheel` runs the
empty wheel listener, `scroll` runs the scroll listener, and `keydown`
has no listener at all, so delivering it runs no code. -/
def dispatch (env : Env) (now : ℚ) (e : Event) (s : State) : State :=
  match e with
  | .click => interactionHandler env now s
  | .touchstart => interactionHandler env now s
  | .wheel => wheelHandler s
  | .keydown => s
  | .scroll => onScroll env now s

/-- The initial `state` object (src/script.js lines 15-21), scroll at the
top, scrolling unlocked, no pending animation. -/
def initialState : State :=
  { loadedCount := 0, currentFrame := 0, phase := .LOADING,
    scrollY := 0, noScroll := false, anim := none }

/-- The settle order in which every frame's request succeeds except
frame 5, which errors. -/
def outcomesFrame5Fails : List LoadOutcome :=
  (List.range 145).map (fun i => if i = 5 then LoadOutcome.error else LoadOutcome.success)

/-- The intro animation over the standard layout: from the top across
the full 1000 px extent, 5000 ms starting at time 0. -/
def introAnim : Anim :=
  { startY := 0, dist := 1000, duration := 5000, startTime := 0,
    onComplete := Completion.introDone }

/-- A state mid-intro with that animation pending. -/
def introAnimState : State :=
  { loadedCount := 145, currentFrame := 72, phase := .INTRO, scrollY := 500,
    noScroll := true, anim := some introAnim }

/-- A state still in `LOADING`, scrolled 100 px down the standard
layout. -/
def loadingScrolledState : State :=
  { loadedCount := 3, currentFrame := 0, phase := .LOADING, scrollY := 100,
    noScroll := false, anim := none }

/-! ## Helper lemmas -/

/-- A standard layout: 1100 px document against a 100 px viewport, so the
scroll extent is 1000. -/
def envStd : Env := { scrollHeight := 1100, innerHeight := 100 }

/-- A state sitting at the bottom of the page in `WAITING_FOR_REPLAY`,
as left behind by the intro completion callback. -/
def waitingState : State :=
  { loadedCount := 145, currentFrame := 144, phase := .WAITING_FOR_REPLAY,
    scrollY := 1000, noScroll := false, anim := none }

theorem runCompletion_scrollY (c : Completion) (s : State) :
    (runCompletion c s).scrollY = s.scrollY := by
  cases c <;> rfl

theorem runCompletion_noScroll (c : Completion) (s : State) :
    (runCompletion c s).noScroll = false := by
  cases c <;> rfl

theorem runCompletion_anim (c : Completion) (s : State) :
    (runCompletion c s).anim = s.anim := by
  cases c <;> rfl

theorem runCompletion_currentFrame (c : Completion) (s : State) :
    (runCompletion c s).currentFrame = s.currentFrame := by
  cases c <;> rfl

theorem animateScroll_currentFrame (t d : ℚ) (c : Completion) (n : ℚ) (s : State) :
    (animateScroll t d c n s).currentFrame = s.currentFrame := by
  unfold animateScroll
  dsimp only
  split
  · exact runCompletion_currentFrame c s
  · rfl

theorem triggerReplay_currentFrame (env : Env) (now : ℚ) (s : State) :
    (triggerReplay env now s).currentFrame = s.currentFrame := by
  unfold triggerReplay
  split
  · rfl
  · rw [animateScroll_currentFrame]

/-- The `triggerReplay` guard: outside `WAITING_FOR_REPLAY` the call
returns without touching the state. -/
theorem triggerReplay_noop (env : Env) (now : ℚ) (s : State)
    (h : s.phase ≠ Phase.WAITING_FOR_REPLAY) :
    triggerReplay env now s = s := by
  unfold triggerReplay
  rw [if_pos h]

/-- Full characterization of `triggerReplay` from `WAITING_FOR_REPLAY`
with a positive scroll extent: jump to the top, lock scrolling, enter
`REPLAY_PLAYING` and schedule the animation toward `maxScroll`. -/
theorem triggerReplay_eq_of_waiting (env : Env) (now : ℚ) (s : State)
    (h : s.phase = Phase.WAITING_FOR_REPLAY) (hm : 0 < maxScroll env) :
    triggerReplay env now s =
      { s with phase := Phase.REPLAY_PLAYING, noScroll := true, scrollY := 0,
               anim := some { startY := 0, dist := maxScroll env,
                              duration := CONFIG.duration, startTime := now,
                              onComplete := Completion.replayDone } } := by
  unfold triggerReplay animateScroll
  rw [if_neg (by simp [h])]
  dsimp only
  rw [if_neg (by simpa using ne_of_gt hm)]
  simp

theorem triggerReplay_phase_of_waiting (env : Env) (now : ℚ) (s : State)
    (h : s.phase = Phase.WAITING_FOR_REPLAY) (hm : 0 < maxScroll env) :
    (triggerReplay env now s).phase = Phase.REPLAY_PLAYING := by
  rw [triggerReplay_eq_of_waiting env now s h hm]

theorem jsRound_intCast (k : ℤ) : jsRound (k : ℚ) = k := by
  unfold jsRound
  rw [Int.floor_int_add,
    Int.floor_eq_iff.mpr (by norm_num : ((0:ℤ):ℚ) ≤ 1/2 ∧ (1/2:ℚ) < 0 + 1)]
  ring

/-- The clamp in `renderFrame` is the identity on an integer index that
is already in `[0, frameCount-1]`. -/
theorem renderIndex_intCast (N : ℕ) (k : ℤ) (h0 : 0 ≤ k) (h1 : k ≤ (N:ℤ) - 1) :
    renderIndex N (k : ℚ) = k := by
  unfold renderIndex
  rw [jsRound_intCast]
  have hk0 : ¬ k < 0 := not_lt.mpr h0
  have hkN : ¬ k ≥ (N:ℤ) := by omega
  simp [hk0, hkN]

/-! ## C1: scroll progress to frame index -/

/-- C1: For every progress value in `[0,1]` and frameCount `N ≥ 1`, the
scroll driver maps progress to the frame index
`⌊progress * (N-1)⌋`, the index actually rendered (after `renderFrame`'s
round-and-clamp) equals that same value and lies in `[0, N-1]`; in
particular with `frameCount = 145`, progress `0` yields frame `0`,
progress `1` yields frame `144`, and progress `1/2` yields frame `72`. -/
theorem C1_scroll_frame_mapping (p : ℚ) (N : ℕ)
    (h0 : 0 ≤ p) (h1 : p ≤ 1) (hN : 1 ≤ N) :
    renderIndex N ((frameForScroll N p : ℤ) : ℚ) = Int.floor (p * ((N : ℚ) - 1)) ∧
    0 ≤ frameForScroll N p ∧ frameForScroll N p ≤ (N : ℤ) - 1 ∧
    frameForScroll 145 0 = 0 ∧ frameForScroll 145 1 = 144 ∧
    frameForScroll 145 (1/2) = 72 := by
  have hN1 : (0:ℚ) ≤ (N:ℚ) - 1 := by
    have : (1:ℚ) ≤ (N:ℚ) := by exact_mod_cast hN
    linarith
  have hlow : 0 ≤ frameForScroll N p := by
    unfold frameForScroll
    exact Int.floor_nonneg.mpr (mul_nonneg h0 hN1)
  have hhigh : frameForScroll N p ≤ (N:ℤ) - 1 := by
    unfold frameForScroll
    have hle : p * ((N:ℚ) - 1) ≤ (((N:ℤ) - 1 : ℤ) : ℚ) := by
      push_cast
      nlinarith
    have hmono := Int.floor_mono hle
    rwa [Int.floor_intCast] at hmono
  refine ⟨?_, hlow, hhigh, ?_, ?_, ?_⟩
  · rw [renderIndex_intCast N _ hlow hhigh]
    rfl
  · unfold frameForScroll
    rw [Int.floor_eq_iff]
    constructor <;> push_cast <;> norm_num
  · unfold frameForScroll
    rw [Int.floor_eq_iff]
    constructor <;> push_cast <;> norm_num
  · unfold frameForScroll
    rw [Int.floor_eq_iff]
    constructor <;> push_cast <;> norm_num

/-- Witness for C1 at `p = 1/2`, `N = 145`. -/
theorem C1_scroll_frame_mapping_witness :
    renderIndex 145 ((frameForScroll 145 (1/2) : ℤ) : ℚ) =
      Int.floor ((1/2 : ℚ) * (((145:ℕ) : ℚ) - 1)) ∧
    0 ≤ frameForScroll 145 (1/2) ∧
    frameForScroll 145 (1/2) ≤ ((145:ℕ) : ℤ) - 1 ∧
    frameForScroll 145 0 = 0 ∧ frameForScroll 145 1 = 144 ∧
    frameForScroll 145 (1/2) = 72 :=
  C1_scroll_frame_mapping (1/2) 145 (by norm_num) (by norm_num) (by norm_num)

/-! ## C2: a failed image load is never counted -/

set_option maxRecDepth 4000 in
/-- C2: the claim says a failed request is swallowed and still counted
toward `loadedCount`, so the count reaches `frameCount`.  The code
attaches no `onerror` handler, so an errored request increments nothing:
with frame 5 of 145 failing and all others loading, `loadedCount` stops
at 144, never reaches 145, and the load-complete transition out of
`LOADING` never fires. -/
theorem C2_missing_onerror_handler :
    (settleAll envStd 0 outcomesFrame5Fails initialState).loadedCount = 144 ∧
    (settleAll envStd 0 outcomesFrame5Fails initialState).loadedCount ≠ CONFIG.frameCount ∧
    (settleAll envStd 0 outcomesFrame5Fails initialState).phase = Phase.LOADING := by
  decide

/-! ## C3: cover-fit crop rectangle -/

/-- C3: for every positive canvas size `(cw, ch)` and image size
`(iw, ih)`, the cover-fit renderer computes exactly the spec's crop
rectangle in each branch, the crop's aspect ratio equals the canvas's
(`sw/sh = cw/ch`, exactly over ℚ), and the crop fits inside the image
(`sw ≤ iw`, `sh ≤ ih`). -/
theorem C3_cover_crop (cw ch iw ih : ℚ) (hcw : 0 < cw) (hch : 0 < ch)
    (hiw : 0 < iw) (hih : 0 < ih) :
    (cropRect cw ch iw ih).sw / (cropRect cw ch iw ih).sh = cw / ch ∧
    (cropRect cw ch iw ih).sw ≤ iw ∧
    (cropRect cw ch iw ih).sh ≤ ih ∧
    (iw / ih > cw / ch →
      cropRect cw ch iw ih =
        { sh := ih, sw := ih * (cw / ch), sy := 0,
          sx := (iw - ih * (cw / ch)) / 2 }) ∧
    (¬ iw / ih > cw / ch →
      cropRect cw ch iw ih =
        { sw := iw, sh := iw / (cw / ch), sx := 0,
          sy := (ih - iw / (cw / ch)) / 2 }) := by
  unfold cropRect
  dsimp only
  by_cases h : iw / ih > cw / ch
  · rw [if_pos h]
    have hlt : cw * ih < iw * ch := by
      rw [gt_iff_lt, div_lt_div_iff₀ hch hih] at h
      exact h
    refine ⟨?_, ?_, le_refl ih, fun _ => rfl, fun hc => absurd h hc⟩
    · exact mul_div_cancel_left₀ _ (ne_of_gt hih)
    · rw [mul_comm, div_mul_eq_mul_div, div_le_iff₀ hch]
      linarith
  · rw [if_neg h]
    have hle : iw * ch ≤ cw * ih := by
      have h2 : iw / ih ≤ cw / ch := not_lt.mp h
      rw [div_le_div_iff₀ hih hch] at h2
      exact h2
    refine ⟨?_, le_refl iw, ?_, fun hc => absurd hc h, fun _ => rfl⟩
    · rw [div_div_eq_mul_div]
      exact mul_div_cancel_left₀ _ (ne_of_gt hiw)
    · rw [div_div_eq_mul_div, div_le_iff₀ hcw]
      calc iw * ch ≤ cw * ih := hle
        _ = ih * cw := by ring

/-- Witness for C3 at a 16:9 canvas and a 4:3 image (the taller-image
branch). -/
theorem C3_cover_crop_witness :
    (cropRect 16 9 4 3).sw / (cropRect 16 9 4 3).sh = (16 : ℚ) / 9 ∧
    (cropRect 16 9 4 3).sw ≤ 4 ∧
    (cropRect 16 9 4 3).sh ≤ 3 ∧
    ((4 : ℚ) / 3 > (16 : ℚ) / 9 →
      cropRect 16 9 4 3 =
        { sh := 3, sw := 3 * ((16 : ℚ) / 9), sy := 0,
          sx := ((4 : ℚ) - 3 * ((16 : ℚ) / 9)) / 2 }) ∧
    (¬ (4 : ℚ) / 3 > (16 : ℚ) / 9 →
      cropRect 16 9 4 3 =
        { sw := 4, sh := (4 : ℚ) / ((16 : ℚ) / 9), sx := 0,
          sy := ((3 : ℚ) - (4 : ℚ) / ((16 : ℚ) / 9)) / 2 }) :=
  C3_cover_crop 16 9 4 3 (by norm_num) (by norm_num) (by norm_num) (by norm_num)

/-! ## C4: degenerate scroll extent is a no-op -/

/-- C4: on a scroll event, if `maxScroll ≤ 0` the scroll listener
returns at once, changing nothing; if `maxScroll > 0` it sets the
current frame from `progress = min(1, max(0, scrollTop / maxScroll))`. -/
theorem C4_degenerate_scroll (env : Env) (now : ℚ) (s : State) :
    (maxScroll env ≤ 0 → onScroll env now s = s) ∧
    (0 < maxScroll env →
      (onScroll env now s).currentFrame =
        frameForScroll CONFIG.frameCount
          (min 1 (max 0 (s.scrollY / maxScroll env)))) := by
  constructor
  · intro h
    unfold onScroll
    rw [if_pos h]
  · intro h
    unfold onScroll
    rw [if_neg (not_le.mpr h)]
    dsimp only
    split
    · rw [triggerReplay_currentFrame]
    · rfl

/-- Witness for C4: a flat page (scroll extent 0) leaves the state
untouched; on the standard layout the frame comes from the clamped
scroll ratio. -/
theorem C4_degenerate_scroll_witness :
    onScroll { scrollHeight := 100, innerHeight := 100 } 0 initialState = initialState ∧
    (onScroll envStd 0 initialState).currentFrame =
      frameForScroll CONFIG.frameCount
        (min 1 (max 0 (initialState.scrollY / maxScroll envStd))) :=
  ⟨(C4_degenerate_scroll { scrollHeight := 100, innerHeight := 100 } 0 initialState).1
      (by norm_num [maxScroll]),
   (C4_degenerate_scroll envStd 0 initialState).2 (by norm_num [maxScroll, envStd])⟩

/-! ## C5: triggering the replay twice starts one cycle -/

/-- C5: from `WAITING_FOR_REPLAY` (with a positive scroll extent) the
first `triggerReplay` call moves the phase to `REPLAY_PLAYING`; calling
it again on the result changes nothing, and more generally calling it in
any state whose phase is not `WAITING_FOR_REPLAY` returns the state
unchanged. -/
theorem C5_replay_idempotent (env : Env) (now now2 : ℚ) (s u : State)
    (h : s.phase = Phase.WAITING_FOR_REPLAY) (hm : 0 < maxScroll env)
    (hu : u.phase ≠ Phase.WAITING_FOR_REPLAY) :
    (triggerReplay env now s).phase = Phase.REPLAY_PLAYING ∧
    triggerReplay env now2 (triggerReplay env now s) = triggerReplay env now s ∧
    triggerReplay env now2 u = u := by
  have h1 := triggerReplay_phase_of_waiting env now s h hm
  refine ⟨h1, ?_, triggerReplay_noop env now2 u hu⟩
  apply triggerReplay_noop
  rw [h1]
  decide

/-- Witness for C5: waiting at the bottom of the standard layout, with a
`LOADING`-phase state as the arbitrary non-waiting state. -/
theorem C5_replay_idempotent_witness :
    (triggerReplay envStd 0 waitingState).phase = Phase.REPLAY_PLAYING ∧
    triggerReplay envStd 1 (triggerReplay envStd 0 waitingState) =
      triggerReplay envStd 0 waitingState ∧
    triggerReplay envStd 1 initialState = initialState :=
  C5_replay_idempotent envStd 0 1 waitingState initialState rfl
    (by norm_num [maxScroll, envStd]) (by decide)

/-! ## C6: which interaction kinds start the replay -/

/-- Counterexample to C6 as stated: in `WAITING_FOR_REPLAY`, a `wheel`
event and a `keydown` event run no replay-triggering code — the wheel
listener's body is empty (its `triggerReplay()` call is commented out)
and no keydown listener is registered — so neither starts the replay. -/
theorem C6_counterexample :
    waitingState.phase = Phase.WAITING_FOR_REPLAY ∧
    dispatch envStd 0 Event.wheel waitingState = waitingState ∧
    dispatch envStd 0 Event.keydown waitingState = waitingState ∧
    (dispatch envStd 0 Event.wheel waitingState).phase ≠ Phase.REPLAY_PLAYING ∧
    (dispatch envStd 0 Event.keydown waitingState).phase ≠ Phase.REPLAY_PLAYING :=
  ⟨rfl, rfl, rfl, by decide, by decide⟩

/-- C6 (amended): while in `WAITING_FOR_REPLAY` with a positive scroll
extent, the first `click`, `touchstart`, or `scroll` event starts the
replay (phase becomes `REPLAY_PLAYING`); `wheel` and `keydown` events do
not change the state at all — the wheel listener defers to the scroll
event the gesture causes, and there is no keydown listener. -/
theorem C6_interaction_triggers (env : Env) (now : ℚ) (s : State)
    (h : s.phase = Phase.WAITING_FOR_REPLAY) (hm : 0 < maxScroll env) :
    (dispatch env now Event.click s).phase = Phase.REPLAY_PLAYING ∧
    (dispatch env now Event.touchstart s).phase = Phase.REPLAY_PLAYING ∧
    (dispatch env now Event.scroll s).phase = Phase.REPLAY_PLAYING ∧
    dispatch env now Event.wheel s = s ∧
    dispatch env now Event.keydown s = s := by
  have hih : (interactionHandler env now s).phase = Phase.REPLAY_PLAYING := by
    unfold interactionHandler
    rw [if_pos h]
    exact triggerReplay_phase_of_waiting env now s h hm
  refine ⟨hih, hih, ?_, rfl, rfl⟩
  show (onScroll env now s).phase = Phase.REPLAY_PLAYING
  unfold onScroll
  rw [if_neg (not_le.mpr hm)]
  dsimp only
  split
  · exact triggerReplay_phase_of_waiting env now _ (by simpa using h) hm
  · next hc => exact absurd h hc

/-- Witness for C6 (amended) on the standard layout while waiting at the
bottom. -/
theorem C6_interaction_triggers_witness :
    (dispatch envStd 0 Event.click waitingState).phase = Phase.REPLAY_PLAYING ∧
    (dispatch envStd 0 Event.touchstart waitingState).phase = Phase.REPLAY_PLAYING ∧
    (dispatch envStd 0 Event.scroll waitingState).phase = Phase.REPLAY_PLAYING ∧
    dispatch envStd 0 Event.wheel waitingState = waitingState ∧
    dispatch envStd 0 Event.keydown waitingState = waitingState :=
  C6_interaction_triggers envStd 0 waitingState rfl (by norm_num [maxScroll, envStd])

/-! ## C7: animation completion hands off without a jump -/

/-- On its final tick (elapsed ≥ duration) the animation loop scrolls to
exactly `startY + dist`, stops rescheduling, and runs the completion
callback. -/
theorem animTick_complete (s : State) (a : Anim) (time : ℚ)
    (ha : s.anim = some a) (hd : 0 < a.duration)
    (ht : a.duration ≤ time - a.startTime) :
    animTick time s =
      runCompletion a.onComplete
        { s with scrollY := a.startY + a.dist * 1, anim := none } := by
  unfold animTick
  rw [ha]
  have hp : min 1 ((time - a.startTime) / a.duration) = (1:ℚ) :=
    min_eq_left ((one_le_div hd).mpr ht)
  dsimp only
  rw [hp, if_neg (lt_irrefl (1:ℚ))]

/-- C7: when the tick that reaches progress 1 fires, the scroll offset
equals the animation target `startY + dist` (for the intro and the
replay this target is `maxScroll`), page scrolling is unlocked, the
phase advances (`INTRO → WAITING_FOR_REPLAY` via the intro callback,
`REPLAY_PLAYING → MANUAL` via the replay callback), and the frame the
scroll listener derives at that offset is the final frame 144 — so the
handoff causes no visual jump. -/
theorem C7_completion_handoff (s : State) (a : Anim) (time : ℚ)
    (ha : s.anim = some a) (hd : 0 < a.duration)
    (ht : a.duration ≤ time - a.startTime) (hm : 0 < a.startY + a.dist) :
    (animTick time s).scrollY = a.startY + a.dist ∧
    (animTick time s).noScroll = false ∧
    (a.onComplete = Completion.introDone →
      (animTick time s).phase = Phase.WAITING_FOR_REPLAY) ∧
    (a.onComplete = Completion.replayDone →
      (animTick time s).phase = Phase.MANUAL) ∧
    frameForScroll CONFIG.frameCount
      (min 1 (max 0 ((animTick time s).scrollY / (a.startY + a.dist)))) = 144 := by
  rw [animTick_complete s a time ha hd ht]
  have hy : (runCompletion a.onComplete
      { s with scrollY := a.startY + a.dist * 1, anim := none }).scrollY
      = a.startY + a.dist := by
    rw [runCompletion_scrollY]
    dsimp only
    ring
  refine ⟨hy, runCompletion_noScroll _ _, ?_, ?_, ?_⟩
  · intro hc
    rw [hc]
    rfl
  · intro hc
    rw [hc]
    rfl
  · rw [hy, div_self (ne_of_gt hm),
      max_eq_right (by norm_num : (0:ℚ) ≤ 1), min_self]
    unfold frameForScroll CONFIG
    dsimp only
    rw [Int.floor_eq_iff]
    constructor <;> push_cast <;> norm_num

/-- Witness for C7: the intro's final tick at time 5000. -/
theorem C7_completion_handoff_witness :
    (animTick 5000 introAnimState).scrollY = introAnim.startY + introAnim.dist ∧
    (animTick 5000 introAnimState).noScroll = false ∧
    (introAnim.onComplete = Completion.introDone →
      (animTick 5000 introAnimState).phase = Phase.WAITING_FOR_REPLAY) ∧
    (introAnim.onComplete = Completion.replayDone →
      (animTick 5000 introAnimState).phase = Phase.MANUAL) ∧
    frameForScroll CONFIG.frameCount
      (min 1 (max 0 ((animTick 5000 introAnimState).scrollY /
        (introAnim.startY + introAnim.dist)))) = 144 :=
  C7_completion_handoff introAnimState introAnim 5000 rfl (by norm_num [introAnim])
    (by norm_num [introAnim]) (by norm_num [introAnim])

/-! ## C8: phase guards on event handlers -/

/-- Counterexample to C8 as stated: the scroll listener's frame update
carries no phase guard — a scroll event delivered while still in
`LOADING` (not a phase whose driver should be live) changes
`state.currentFrame` from 0 to 14. -/
theorem C8_counterexample :
    loadingScrolledState.phase = Phase.LOADING ∧
    (dispatch envStd 0 Event.scroll loadingScrolledState).currentFrame = 14 ∧
    (dispatch envStd 0 Event.scroll loadingScrolledState).currentFrame ≠
      loadingScrolledState.currentFrame := by
  have hmain :
      (dispatch envStd 0 Event.scroll loadingScrolledState).currentFrame = 14 := by
    show (onScroll envStd 0 loadingScrolledState).currentFrame = 14
    unfold onScroll
    rw [if_neg (by norm_num [maxScroll, envStd])]
    dsimp only
    rw [if_neg (by decide)]
    show frameForScroll CONFIG.frameCount
      (min 1 (max 0 (loadingScrolledState.scrollY / maxScroll envStd))) = 14
    rw [show loadingScrolledState.scrollY / maxScroll envStd = (1/10 : ℚ) by
      norm_num [loadingScrolledState, maxScroll, envStd]]
    rw [show max (0:ℚ) (1/10) = 1/10 from max_eq_right (by norm_num)]
    rw [show min (1:ℚ) (1/10) = 1/10 from min_eq_right (by norm_num)]
    unfold frameForScroll CONFIG
    dsimp only
    rw [Int.floor_eq_iff]
    constructor <;> push_cast <;> norm_num
  refine ⟨rfl, hmain, ?_⟩
  rw [hmain]
  decide

/-- Outside `WAITING_FOR_REPLAY`, a scroll event either does nothing
(degenerate extent) or changes only `currentFrame`. -/
theorem onScroll_not_waiting (env : Env) (now : ℚ) (s : State)
    (h : s.phase ≠ Phase.WAITING_FOR_REPLAY) :
    onScroll env now s = s ∨
    onScroll env now s =
      { s with currentFrame := frameForScroll CONFIG.frameCount (min 1 (max 0 (s.scrollY / maxScroll env))) } := by
  rcases le_or_lt (maxScroll env) 0 with hle | hlt
  · refine Or.inl ?_
    unfold onScroll
    rw [if_pos hle]
  · refine Or.inr ?_
    unfold onScroll
    rw [if_neg (not_le.mpr hlt)]
    dsimp only
    rw [if_neg (by simpa using h)]

/-- C8 (amended): every replay-triggering action is phase-guarded — in
any phase other than `WAITING_FOR_REPLAY`, the `click`, `touchstart`,
`wheel` and `keydown` handlers leave the state completely unchanged, and
a `scroll` event changes at most `currentFrame`: the scroll listener's
frame update is deliberately unguarded and live in every phase
(unifying the auto and manual modes), so the claim's "in particular"
fails while the guard discipline on every other mutation holds. -/
theorem C8_phase_guards (env : Env) (now : ℚ) (s : State)
    (h : s.phase ≠ Phase.WAITING_FOR_REPLAY) :
    dispatch env now Event.click s = s ∧
    dispatch env now Event.touchstart s = s ∧
    dispatch env now Event.wheel s = s ∧
    dispatch env now Event.keydown s = s ∧
    (dispatch env now Event.scroll s).phase = s.phase ∧
    (dispatch env now Event.scroll s).scrollY = s.scrollY ∧
    (dispatch env now Event.scroll s).noScroll = s.noScroll ∧
    (dispatch env now Event.scroll s).loadedCount = s.loadedCount ∧
    (dispatch env now Event.scroll s).anim = s.anim := by
  have hclick : interactionHandler env now s = s := by
    unfold interactionHandler
    rw [if_neg h]
  have hd : dispatch env now Event.scroll s = onScroll env now s := rfl
  rcases onScroll_not_waiting env now s h with h1 | h1
  · exact ⟨hclick, hclick, rfl, rfl, by rw [hd, h1], by rw [hd, h1], by rw [hd, h1],
      by rw [hd, h1], by rw [hd, h1]⟩
  · exact ⟨hclick, hclick, rfl, rfl, by rw [hd, h1], by rw [hd, h1], by rw [hd, h1],
      by rw [hd, h1], by rw [hd, h1]⟩

/-- Witness for C8 (amended) on a `LOADING`-phase state over the
standard layout. -/
theorem C8_phase_guards_witness :
    dispatch envStd 0 Event.click initialState = initialState ∧
    dispatch envStd 0 Event.touchstart initialState = initialState ∧
    dispatch envStd 0 Event.wheel initialState = initialState ∧
    dispatch envStd 0 Event.keydown initialState = initialState ∧
    (dispatch envStd 0 Event.scroll initialState).phase = initialState.phase ∧
    (dispatch envStd 0 Event.scroll initialState).scrollY = initialState.scrollY ∧
    (dispatch envStd 0 Event.scroll initialState).noScroll = initialState.noScroll ∧
    (dispatch envStd 0 Event.scroll initialState).loadedCount = initialState.loadedCount ∧
    (dispatch envStd 0 Event.scroll initialState).anim = initialState.anim :=
  C8_phase_guards envStd 0 initialState (by decide)

/-! ## C9: the replay restarts from the top -/

/-- C9: triggered from `WAITING_FOR_REPLAY`, the replay first jumps the
scroll offset to 0, and only then schedules the programmatic animation
toward `maxScroll`: the pending animation's `startY` is 0, and the frame
the scroll listener derives at that offset is frame 0 — the replayed
sequence begins at the top, not at the current position. -/
theorem C9_replay_restarts_from_top (env : Env) (now : ℚ) (s : State)
    (h : s.phase = Phase.WAITING_FOR_REPLAY) (hm : 0 < maxScroll env) :
    (triggerReplay env now s).scrollY = 0 ∧
    (triggerReplay env now s).anim =
      some { startY := 0, dist := maxScroll env, duration := CONFIG.duration,
             startTime := now, onComplete := Completion.replayDone } ∧
    frameForScroll CONFIG.frameCount
      (min 1 (max 0 ((triggerReplay env now s).scrollY / maxScroll env))) = 0 := by
  rw [triggerReplay_eq_of_waiting env now s h hm]
  refine ⟨rfl, rfl, ?_⟩
  show frameForScroll CONFIG.frameCount (min 1 (max 0 ((0:ℚ) / maxScroll env))) = 0
  rw [zero_div, max_self, min_eq_right (by norm_num : (0:ℚ) ≤ 1)]
  unfold frameForScroll
  rw [zero_mul, Int.floor_zero]

/-- Witness for C9: waiting at the bottom of the standard layout. -/
theorem C9_replay_restarts_from_top_witness :
    (triggerReplay envStd 0 waitingState).scrollY = 0 ∧
    (triggerReplay envStd 0 waitingState).anim =
      some { startY := 0, dist := maxScroll envStd, duration := CONFIG.duration,
             startTime := 0, onComplete := Completion.replayDone } ∧
    frameForScroll CONFIG.frameCount
      (min 1 (max 0 ((triggerReplay envStd 0 waitingState).scrollY /
        maxScroll envStd))) = 0 :=
  C9_replay_restarts_from_top envStd 0 waitingState rfl (by norm_num [maxScroll, envStd])

/-! ## C10: zero-distance animateScroll completes synchronously -/

/-- C10: calling `animateScroll` with a target equal to the current
scroll offset (distance 0) invokes the completion callback immediately
and synchronously, schedules no animation tick (the pending-animation
slot is untouched), and leaves the scroll position unchanged. -/
theorem C10_zero_distance (targetY dur now : ℚ) (cb : Completion) (s : State)
    (h : s.scrollY = targetY) :
    animateScroll targetY dur cb now s = runCompletion cb s ∧
    (animateScroll targetY dur cb now s).anim = s.anim ∧
    (animateScroll targetY dur cb now s).scrollY = s.scrollY := by
  have hz : targetY - s.scrollY = 0 := by rw [h, sub_self]
  have he : animateScroll targetY dur cb now s = runCompletion cb s := by
    unfold animateScroll
    rw [if_pos hz]
  exact ⟨he, by rw [he, runCompletion_anim], by rw [he, runCompletion_scrollY]⟩

/-- Witness for C10: already at the bottom, target the bottom. -/
theorem C10_zero_distance_witness :
    animateScroll 1000 5000 Completion.replayDone 0 waitingState =
      runCompletion Completion.replayDone waitingState ∧
    (animateScroll 1000 5000 Completion.replayDone 0 waitingState).anim =
      waitingState.anim ∧
    (animateScroll 1000 5000 Completion.replayDone 0 waitingState).scrollY =
      waitingState.scrollY :=
  C10_zero_distance 1000 5000 0 Completion.replayDone waitingState rfl
